import Mathlib

/-!
Verification development for the "Hello Coral" webcam object-detection demo
(main.py).  The core resolution-negotiation and coordinate-remapping logic is
shallowly embedded: Python floats are modelled as exact rationals (ℚ), the
pixel frame is modelled as its dimensions together with the ordered list of
drawing operations performed on it, and the capture device is modelled as a
deterministic request-to-adopted-resolution function.
-/

/-- A resolution: a (width, height) pair of pixels. -/
abbrev Res := ℕ × ℕ

/-- Python `int()` applied to a rational: truncation toward zero
(main.py lines 155-158 convert the scaled box coordinates with `int(...)`). -/
def truncZ (q : ℚ) : ℤ :=
  if 0 ≤ q then ⌊q⌋ else ⌈q⌉

/-- A detection bounding box in some coordinate space, with rational
(Python float) coordinates. -/
structure BBox where
  xmin : ℚ
  ymin : ℚ
  xmax : ℚ
  ymax : ℚ
deriving DecidableEq, Repr

/-- Modelled from the spec: pycoral's `bbox.scale(scale_x, scale_y)` (an
external library call, main.py line 150) multiplies each coordinate by its
own axis's factor, mapping the box from model-input space to native space. -/
def BBox.scale (b : BBox) (sx sy : ℚ) : BBox :=
  ⟨b.xmin * sx, b.ymin * sy, b.xmax * sx, b.ymax * sy⟩

/-- A detected object as returned by `detect.get_objects`: class id,
confidence score, bounding box in model-input coordinates.  The `raises`
flag is modelled from the spec: the spec's failure semantics allow an
unexpected error while remapping/drawing one detection; the error source is
the external pycoral/OpenCV calls, modelled here as a per-detection flag that
makes the processing of that detection raise. -/
structure Obj where
  id : ℕ
  score : ℚ
  bbox : BBox
  raises : Bool
deriving DecidableEq, Repr

/-- A drawing operation recorded on a frame: `cv2.rectangle` (main.py line
171) or `cv2.putText` (line 180).  The text annotation keeps the structured
data of the f-string (class name, rounded confidence percentage) and the
anchor position; fixed color/font/thickness arguments are omitted. -/
inductive Ann
  | rect (xmin ymin xmax ymax : ℤ)
  | text (nome_classe : String) (confidenza : ℚ) (x y : ℤ)
deriving DecidableEq, Repr

/-- A video frame: native width and height (`shape[1]`, `shape[0]`) together
with the ordered list of drawing operations performed on it so far. -/
structure Frame where
  w : ℕ
  h : ℕ
  anns : List Ann
deriving DecidableEq, Repr

/-- Python `round(q, 1)`: rounding to one decimal place (ties modelled as
round-to-nearest; main.py line 167). -/
def round1 (q : ℚ) : ℚ :=
  (round (q * 10) : ℚ) / 10

/-- Label lookup, `etichette.get(obj.id, 'Sconosciuto')` (main.py line 166):
the label table maps line index to class name, and any index outside the
loaded range yields the fallback placeholder. -/
def getLabel (etichette : List String) (id : ℕ) : String :=
  etichette.getD id "Sconosciuto"

/-- The out-of-frame safety check of main.py line 162, on the already
truncated integer coordinates:
`xmin < 0 or ymin < 0 or xmax > shape[1] or ymax > shape[0]`. -/
def fuori_bordi (w h : ℕ) (xmin ymin xmax ymax : ℤ) : Prop :=
  xmin < 0 ∨ ymin < 0 ∨ xmax > (w : ℤ) ∨ ymax > (h : ℤ)

instance (w h : ℕ) (a b c d : ℤ) : Decidable (fuori_bordi w h a b c d) := by
  unfold fuori_bordi; infer_instance

/-- The body of the `for obj in oggetti` loop of `disegna_risultati`
(main.py lines 143-184).  Returns `.error ()` when the external call for
this detection raises; otherwise returns the frame, annotated unless the
safety check dropped the detection. -/
def disegnaStep (etichette : List String) (scale_x scale_y : ℚ)
    (frame : Frame) (obj : Obj) : Except Unit Frame :=
  if obj.raises then .error () else
  let bbox_scalata := obj.bbox.scale scale_x scale_y
  let xmin := truncZ bbox_scalata.xmin
  let ymin := truncZ bbox_scalata.ymin
  let xmax := truncZ bbox_scalata.xmax
  let ymax := truncZ bbox_scalata.ymax
  if fuori_bordi frame.w frame.h xmin ymin xmax ymax then
    .ok frame
  else
    let nome_classe := getLabel etichette obj.id
    let confidenza := round1 (obj.score * 100)
    let y_testo := ymin - 10
    let y_testo := if y_testo < 10 then ymin + 20 else y_testo
    .ok { frame with
          anns := frame.anns ++
            [Ann.rect xmin ymin xmax ymax,
             Ann.text nome_classe confidenza xmin y_testo] }

/-- The `for` loop of `disegna_risultati` under its surrounding
`try/except`: detections are processed in order; a raise aborts the rest of
the loop (the `except` swallows the error) and the frame annotated so far is
kept. -/
def processObjs (etichette : List String) (scale_x scale_y : ℚ) :
    Frame → List Obj → Frame
  | frame, [] => frame
  | frame, obj :: rest =>
    match disegnaStep etichette scale_x scale_y frame obj with
    | .ok frame' => processObjs etichette scale_x scale_y frame' rest
    | .error _ => frame

/-- `disegna_risultati(frame_nativo, oggetti, etichette, scale_x, scale_y)`
(main.py lines 124-191): draws boxes and labels on the native frame and
always returns that frame. -/
def disegna_risultati (frame_nativo : Frame) (oggetti : List Obj)
    (etichette : List String) (scale_x scale_y : ℚ) : Frame :=
  processObjs etichette scale_x scale_y frame_nativo oggetti

/-- `scale_x = width_nativo / input_size[0]` (main.py line 393), Python
float division modelled as exact rational division. -/
def scale_x (width_nativo input_w : ℕ) : ℚ :=
  (width_nativo : ℚ) / (input_w : ℚ)

/-- `scale_y = height_nativo / input_size[1]` (main.py line 394). -/
def scale_y (height_nativo input_h : ℕ) : ℚ :=
  (height_nativo : ℚ) / (input_h : ℚ)

/-- The capture device, modelled from its external interface: it holds a
current/default resolution and, for any requested resolution, adopts some
device-determined resolution which it echoes back on `cap.get` (the device
may silently clamp or round requests; the adopted value depends only on the
request). -/
structure Cam where
  default_res : Res
  apply : Res → Res

/-- The fixed priority list of candidate resolutions probed by
`trova_risoluzioni_supportate` (main.py lines 234-240). -/
def risoluzioni_da_testare : List Res :=
  [(640, 480), (800, 600), (1024, 768), (1280, 720), (1920, 1080)]

/-- One iteration of the probing loop (main.py lines 245-260): skip the
default, request the candidate, read back what the device adopted, and
append the candidate when it was echoed identically and is not already in
the list. -/
def provaRisoluzione (cam : Cam) (acc : List Res) (r : Res) : List Res :=
  if r = cam.default_res then acc
  else if cam.apply r = r ∧ r ∉ acc then acc ++ [r]
  else acc

/-- `trova_risoluzioni_supportate(cap)` (main.py lines 215-267): returns the
supported list (default first) paired with the resolution the device holds
after the final restore request for the default (lines 263-264). -/
def trova_risoluzioni_supportate (cam : Cam) : List Res × Res :=
  (risoluzioni_da_testare.foldl (provaRisoluzione cam) [cam.default_res],
   cam.apply cam.default_res)

/-- `SOGLIA_CONFIDENZA_DEFAULT = 0.7` (main.py line 88). -/
def SOGLIA_CONFIDENZA_DEFAULT : ℚ := 7 / 10

/-- `SOGLIA_CONFIDENZA_DEBUG = 0.1` (main.py line 89). -/
def SOGLIA_CONFIDENZA_DEBUG : ℚ := 1 / 10

/-- `soglia_attuale = SOGLIA_CONFIDENZA_DEBUG if debug_mode else
SOGLIA_CONFIDENZA_DEFAULT` (main.py line 432). -/
def soglia_attuale (debug_mode : Bool) : ℚ :=
  if debug_mode then SOGLIA_CONFIDENZA_DEBUG else SOGLIA_CONFIDENZA_DEFAULT

/-- `detect.get_objects(interpreter, soglia)` (main.py line 434), modelled
over the candidate detections the engine produced for the frame: keeps the
ones whose score reaches the threshold. -/
def get_objects (raw : List Obj) (soglia : ℚ) : List Obj :=
  raw.filter fun o => soglia ≤ o.score

/-- The loop-scoped mutable session state of `main` (main.py lines 397-399):
debug flag, previous frame timestamp, current FPS estimate. -/
structure LoopState where
  debug_mode : Bool
  prev_frame_time : ℚ
  fps : ℚ
deriving DecidableEq, Repr

/-- The per-iteration inputs from the environment: the capture result
(`ret`, frame), the timestamp, the raw detections the engine would report
for the squashed frame, and the key (if any) returned by the key poll. -/
structure FrameInput where
  new_frame_time : ℚ
  ret : Bool
  frame_nativo : Frame
  raw : List Obj
  key : Option Char

/-- The displayed frame of one iteration: the annotated frame plus the
structured data of the five status-overlay texts (main.py lines 448-461). -/
structure Display where
  frame : Frame
  testo_webcam : ℕ × ℕ
  testo_tpu : ℕ × ℕ
  testo_fps : ℚ
  testo_oggetti : ℕ
  testo_soglia : ℚ × Bool
deriving DecidableEq, Repr

/-- The result of one iteration of the main loop: the new session state,
the displayed frame (none when capture failed), and whether the loop exits. -/
structure StepOut where
  state : LoopState
  display : Option Display
  quit : Bool
deriving DecidableEq, Repr

/-- One iteration of the main inference loop (main.py lines 408-482):
capture, squash-resize and inference (modelled by the raw detections in the
input), threshold filtering, rendering, FPS/overlay update, display, and
key handling (`q` quits, `d` toggles the debug flag; `s` only writes a
screenshot file). -/
def loopStep (etichette : List String) (input_size : ℕ × ℕ)
    (width_nativo height_nativo : ℕ) (sx sy : ℚ)
    (s : LoopState) (i : FrameInput) : StepOut :=
  if i.ret = false then ⟨s, none, true⟩ else
  let soglia := soglia_attuale s.debug_mode
  let oggetti := get_objects i.raw soglia
  let frame_con_risultati := disegna_risultati i.frame_nativo oggetti etichette sx sy
  let fps := if s.prev_frame_time > 0
             then 1 / (i.new_frame_time - s.prev_frame_time) else s.fps
  let display : Display :=
    ⟨frame_con_risultati, (width_nativo, height_nativo), input_size,
     fps, oggetti.length, (soglia, s.debug_mode)⟩
  let quit := i.key = some 'q'
  let debug_mode' := if i.key = some 'd' then ! s.debug_mode else s.debug_mode
  ⟨⟨debug_mode', i.new_frame_time, fps⟩, some display, quit⟩

lemma truncZ_of_nonneg {q : ℚ} (h : 0 ≤ q) : truncZ q = ⌊q⌋ := by
  simp [truncZ, h]

lemma truncZ_of_neg {q : ℚ} (h : q < 0) : truncZ q = ⌈q⌉ := by
  simp [truncZ, not_le.mpr h]

lemma ceil_nonpos_of_nonpos {q : ℚ} (h : q ≤ 0) : ⌈q⌉ ≤ 0 :=
  Int.ceil_le.mpr (by exact_mod_cast h)

lemma truncZ_mono {a b : ℚ} (h : a ≤ b) : truncZ a ≤ truncZ b := by
  unfold truncZ
  by_cases ha : 0 ≤ a
  · have hb : 0 ≤ b := le_trans ha h
    simp only [ha, hb, if_true]
    exact Int.floor_mono h
  · by_cases hb : 0 ≤ b
    · simp only [ha, hb, if_true, if_false]
      calc ⌈a⌉ ≤ 0 := ceil_nonpos_of_nonpos (le_of_not_le ha)
        _ ≤ ⌊b⌋ := Int.floor_nonneg.mpr hb
    · simp only [ha, hb, if_false]
      exact Int.ceil_mono h

lemma truncZ_nonneg_iff {q : ℚ} : 0 ≤ truncZ q ↔ -1 < q := by
  unfold truncZ
  by_cases hq : 0 ≤ q
  · simp only [hq, if_true]
    constructor
    · intro _; linarith
    · intro _; exact Int.floor_nonneg.mpr hq
  · simp only [hq, if_false]
    rw [show (0 : ℤ) ≤ ⌈q⌉ ↔ -1 < ⌈q⌉ from by omega, Int.lt_ceil]
    norm_num

lemma truncZ_le_of_lt_add_one {q : ℚ} {n : ℕ} (h : q < (n : ℚ) + 1) :
    truncZ q ≤ (n : ℤ) := by
  unfold truncZ
  by_cases hq : 0 ≤ q
  · simp only [hq, if_true]
    rw [Int.floor_le_iff]; push_cast; exact h
  · simp only [hq, if_false]
    calc ⌈q⌉ ≤ 0 := ceil_nonpos_of_nonpos (le_of_not_le hq)
      _ ≤ (n : ℤ) := Int.ofNat_nonneg n

/-- Claim C1: for every native resolution N and model input resolution M with
positive components, the scale calculation yields scaleX = N.width / M.width
and scaleY = N.height / M.height by exact (floating-point, never
integer-truncating) division — witnessed by the factors multiplying back to
the exact native dimensions — and remapping a model-space box multiplies
each coordinate by its own axis's factor. -/
theorem claim_C1_scale_factors (N M : Res) (hw : 0 < M.1) (hh : 0 < M.2) :
    scale_x N.1 M.1 = (N.1 : ℚ) / (M.1 : ℚ) ∧
    scale_y N.2 M.2 = (N.2 : ℚ) / (M.2 : ℚ) ∧
    scale_x N.1 M.1 * (M.1 : ℚ) = (N.1 : ℚ) ∧
    scale_y N.2 M.2 * (M.2 : ℚ) = (N.2 : ℚ) ∧
    ∀ b : BBox, b.scale (scale_x N.1 M.1) (scale_y N.2 M.2) =
      ⟨b.xmin * scale_x N.1 M.1, b.ymin * scale_y N.2 M.2,
       b.xmax * scale_x N.1 M.1, b.ymax * scale_y N.2 M.2⟩ := by
  have hw' : (M.1 : ℚ) ≠ 0 := Nat.cast_ne_zero.mpr hw.ne'
  have hh' : (M.2 : ℚ) ≠ 0 := Nat.cast_ne_zero.mpr hh.ne'
  refine ⟨rfl, rfl, ?_, ?_, fun b => rfl⟩
  · rw [scale_x, div_mul_cancel₀ _ hw']
  · rw [scale_y, div_mul_cancel₀ _ hh']

/-- Witness for claim C1 at native 1280×720, model input 300×300. -/
theorem claim_C1_scale_factors_witness :
    scale_x 1280 300 * (300 : ℚ) = (1280 : ℚ) ∧
    scale_y 720 300 * (300 : ℚ) = (720 : ℚ) :=
  ⟨(claim_C1_scale_factors (1280, 720) (300, 300) (by norm_num) (by norm_num)).2.2.1,
   (claim_C1_scale_factors (1280, 720) (300, 300) (by norm_num) (by norm_num)).2.2.2.1⟩

/-- Claim C4: the rectangle spanning the full model-space corners
(0,0)-(M.w,M.h) remaps under the computed scale factors to exactly
(0,0)-(N.w,N.h). -/
theorem claim_C4_roundtrip (N M : Res) (hw : 0 < M.1) (hh : 0 < M.2) :
    BBox.scale ⟨0, 0, (M.1 : ℚ), (M.2 : ℚ)⟩ (scale_x N.1 M.1) (scale_y N.2 M.2) =
      ⟨0, 0, (N.1 : ℚ), (N.2 : ℚ)⟩ := by
  have hw' : (M.1 : ℚ) ≠ 0 := Nat.cast_ne_zero.mpr hw.ne'
  have hh' : (M.2 : ℚ) ≠ 0 := Nat.cast_ne_zero.mpr hh.ne'
  simp only [BBox.scale, scale_x, scale_y, zero_mul, BBox.mk.injEq]
  refine ⟨trivial, trivial, ?_, ?_⟩
  · rw [mul_comm, div_mul_cancel₀ _ hw']
  · rw [mul_comm, div_mul_cancel₀ _ hh']

/-- Witness for claim C4 at native 1280×720, model input 300×300. -/
theorem claim_C4_roundtrip_witness :
    BBox.scale ⟨0, 0, (300 : ℚ), (300 : ℚ)⟩ (scale_x 1280 300) (scale_y 720 300) =
      ⟨0, 0, (1280 : ℚ), (720 : ℚ)⟩ :=
  claim_C4_roundtrip (1280, 720) (300, 300) (by norm_num) (by norm_num)

/-- Claim C5: with native 1280×720 and model input 300×300 the factors are
scaleX = 4.2667 (to the stated four decimal places; the exact value is
64/15) and scaleY = 2.4 exactly, and the model-space box (20,10)-(60,50)
remaps to (85.33, 24.0)-(256.0, 120.0), the xmin agreeing with the stated
two decimal places (exact value 1280/15) and the other three coordinates
exactly. -/
theorem claim_C5_scenario :
    scale_y 720 300 = 12 / 5 ∧
    |scale_x 1280 300 - 42667 / 10000| < 1 / 20000 ∧
    (BBox.scale ⟨20, 10, 60, 50⟩ (scale_x 1280 300) (scale_y 720 300)).ymin = 24 ∧
    |(BBox.scale ⟨20, 10, 60, 50⟩ (scale_x 1280 300) (scale_y 720 300)).xmin
      - 8533 / 100| < 1 / 200 ∧
    (BBox.scale ⟨20, 10, 60, 50⟩ (scale_x 1280 300) (scale_y 720 300)).xmax = 256 ∧
    (BBox.scale ⟨20, 10, 60, 50⟩ (scale_x 1280 300) (scale_y 720 300)).ymax = 120 := by
  norm_num [scale_x, scale_y, BBox.scale, abs_lt]

/-- Claim C7: label lookup at any class index outside the loaded range
returns the fixed fallback placeholder (and, being a total function, never
raises). -/
theorem claim_C7_label_fallback (etichette : List String) (id : ℕ)
    (h : etichette.length ≤ id) : getLabel etichette id = "Sconosciuto" := by
  unfold getLabel
  exact List.getD_eq_default _ _ h

/-- Witness for claim C7: a one-entry label table probed at index 5. -/
theorem claim_C7_label_fallback_witness :
    ["person"].length ≤ 5 ∧ getLabel ["person"] 5 = "Sconosciuto" :=
  ⟨by norm_num, claim_C7_label_fallback ["person"] 5 (by norm_num)⟩

/-- Counterexample to claim C2 as stated: with native frame 300×300 and unit
scale factors, a remapped rectangle whose xmax is 300.5 — a coordinate
strictly greater than the native width — is nevertheless rendered (the
drawing annotations are added), not dropped, because the code truncates the
coordinates to integers before the bounds check. -/
theorem claim_C2_counterexample :
    (300 : ℚ) < 601 / 2 ∧
    disegna_risultati ⟨300, 300, []⟩
        [⟨0, 9/10, ⟨0, 0, 601/2, 100⟩, false⟩] ["person"] 1 1 ≠
      ⟨300, 300, []⟩ := by
  refine ⟨by norm_num, ?_⟩
  have hrun : disegna_risultati ⟨300, 300, []⟩
      [⟨0, 9/10, ⟨0, 0, 601/2, 100⟩, false⟩] ["person"] 1 1 =
      ⟨300, 300, [Ann.rect 0 0 300 100, Ann.text "person" 90 0 20]⟩ := by
    norm_num [disegna_risultati, processObjs, disegnaStep, truncZ, fuori_bordi,
      getLabel, round1, BBox.scale]
  rw [hrun]
  simp

/-- Claim C2 (amended): the inclusive bounds check is applied to the
remapped coordinates truncated toward zero: given a remapped rectangle with
ordered corners, the detection is dropped exactly when some truncated
coordinate is negative or strictly exceeds the native width (x) or height
(y); in particular a truncated coordinate exactly equal to the bound is
in-bounds and the detection is rendered. -/
theorem claim_C2_amended_truncated_bounds (w h : ℕ) (b : BBox)
    (hx : b.xmin ≤ b.xmax) (hy : b.ymin ≤ b.ymax) :
    (fuori_bordi w h (truncZ b.xmin) (truncZ b.ymin)
        (truncZ b.xmax) (truncZ b.ymax) ↔
      (truncZ b.xmin < 0 ∨ truncZ b.ymin < 0 ∨
       truncZ b.xmax < 0 ∨ truncZ b.ymax < 0 ∨
       truncZ b.xmin > (w : ℤ) ∨ truncZ b.xmax > (w : ℤ) ∨
       truncZ b.ymin > (h : ℤ) ∨ truncZ b.ymax > (h : ℤ))) ∧
    ((0 ≤ truncZ b.xmin ∧ 0 ≤ truncZ b.ymin ∧
      truncZ b.xmax ≤ (w : ℤ) ∧ truncZ b.ymax ≤ (h : ℤ)) →
      ¬ fuori_bordi w h (truncZ b.xmin) (truncZ b.ymin)
          (truncZ b.xmax) (truncZ b.ymax)) := by
  have m1 := truncZ_mono hx
  have m2 := truncZ_mono hy
  unfold fuori_bordi
  omega

/-- Witness for the amended claim C2 at the boundary rectangle
(0,0)-(300,300) on a 300×300 frame. -/
theorem claim_C2_amended_truncated_bounds_witness :
    ¬ fuori_bordi 300 300 (truncZ (0 : ℚ)) (truncZ (0 : ℚ))
        (truncZ (300 : ℚ)) (truncZ (300 : ℚ)) :=
  (claim_C2_amended_truncated_bounds 300 300 ⟨0, 0, 300, 300⟩
    (by norm_num) (by norm_num)).2
    ⟨by norm_num [truncZ], by norm_num [truncZ],
     by norm_num [truncZ], by norm_num [truncZ]⟩

/-- Claim C9: the in-frame bounds check is applied after truncation toward
zero: a remapped coordinate strictly between -1 and 0 truncates to 0, a
remapped xmax (or ymax) strictly between the native bound and bound + 1
truncates to the bound, and such a detection passes the check and is kept. -/
theorem claim_C9_truncation_kept (w h : ℕ) (x0 y0 x1 y1 : ℚ)
    (hx0l : -1 < x0) (hx0r : x0 < 0)
    (hx1l : (w : ℚ) < x1) (hx1r : x1 < (w : ℚ) + 1)
    (hy0 : -1 < y0) (hy1 : y1 < (h : ℚ) + 1) :
    truncZ x0 = 0 ∧ truncZ x1 = (w : ℤ) ∧
    ¬ fuori_bordi w h (truncZ x0) (truncZ y0) (truncZ x1) (truncZ y1) := by
  have ht0 : truncZ x0 = 0 := by
    rw [truncZ_of_neg hx0r]
    exact Int.ceil_eq_iff.mpr ⟨by push_cast; linarith, by push_cast; linarith⟩
  have ht1 : truncZ x1 = (w : ℤ) := by
    rw [truncZ_of_nonneg (le_trans (Nat.cast_nonneg w) (le_of_lt hx1l))]
    exact Int.floor_eq_iff.mpr ⟨by push_cast; linarith, by push_cast; linarith⟩
  have hky0 : 0 ≤ truncZ y0 := truncZ_nonneg_iff.mpr hy0
  have hky1 : truncZ y1 ≤ (h : ℤ) := truncZ_le_of_lt_add_one hy1
  refine ⟨ht0, ht1, ?_⟩
  unfold fuori_bordi
  omega

/-- Witness for claim C9 on a 300×300 frame: xmin = ymin = -0.5 and
xmax = ymax = 300.5 are truncated to 0 and 300 and the detection is kept. -/
theorem claim_C9_truncation_kept_witness :
    truncZ (-1/2 : ℚ) = 0 ∧ truncZ (601/2 : ℚ) = ((300 : ℕ) : ℤ) ∧
    ¬ fuori_bordi 300 300 (truncZ (-1/2 : ℚ)) (truncZ (-1/2 : ℚ))
        (truncZ (601/2 : ℚ)) (truncZ (601/2 : ℚ)) :=
  claim_C9_truncation_kept 300 300 (-1/2) (-1/2) (601/2) (601/2)
    (by norm_num) (by norm_num) (by norm_num) (by norm_num)
    (by norm_num) (by norm_num)

lemma disegnaStep_ok_of_not_raises (etichette : List String) (sx sy : ℚ)
    (frame : Frame) (obj : Obj) (h : obj.raises = false) :
    ∃ frame', disegnaStep etichette sx sy frame obj = .ok frame' := by
  unfold disegnaStep
  rw [h]
  simp only [Bool.false_eq_true, if_false]
  split
  · exact ⟨frame, rfl⟩
  · exact ⟨_, rfl⟩

/-- Counterexample to claim C3 as stated: the try/except of
`disegna_risultati` wraps the whole for-loop, so when processing of the
first detection raises, the second (perfectly drawable on its own, as the
second conjunct shows) is not processed: the remaining detections of the
frame do not continue. -/
theorem claim_C3_counterexample :
    disegna_risultati ⟨300, 300, []⟩
        [⟨0, 9/10, ⟨20, 10, 60, 50⟩, true⟩, ⟨0, 9/10, ⟨20, 10, 60, 50⟩, false⟩]
        ["person"] 1 1 = ⟨300, 300, []⟩ ∧
    disegna_risultati ⟨300, 300, []⟩
        [⟨0, 9/10, ⟨20, 10, 60, 50⟩, false⟩] ["person"] 1 1 ≠
      ⟨300, 300, []⟩ := by
  constructor
  · norm_num [disegna_risultati, processObjs, disegnaStep]
  · have hrun : disegna_risultati ⟨300, 300, []⟩
        [⟨0, 9/10, ⟨20, 10, 60, 50⟩, false⟩] ["person"] 1 1 =
        ⟨300, 300, [Ann.rect 20 10 60 50, Ann.text "person" 90 20 30]⟩ := by
      norm_num [disegna_risultati, processObjs, disegnaStep, truncZ,
        fuori_bordi, getLabel, round1, BBox.scale]
    rw [hrun]
    simp

/-- Claim C3 (amended): an unexpected error while processing one detection
is caught (the function is total and still returns the frame annotated so
far, so the frame loop is never terminated), but that detection and all the
detections after it in the same frame are skipped: the result equals the
rendering of the detections preceding the failing one. -/
theorem claim_C3_amended_error_stops_frame (frame : Frame)
    (pre rest : List Obj) (o : Obj) (etichette : List String) (sx sy : ℚ)
    (hpre : ∀ p ∈ pre, p.raises = false) (ho : o.raises = true) :
    disegna_risultati frame (pre ++ o :: rest) etichette sx sy =
      disegna_risultati frame pre etichette sx sy := by
  unfold disegna_risultati
  revert hpre
  induction pre generalizing frame with
  | nil =>
    intro _
    simp [processObjs, disegnaStep, ho]
  | cons p ps ih =>
    intro hpre
    have hp : p.raises = false := hpre p (by simp)
    obtain ⟨frame', hframe'⟩ :=
      disegnaStep_ok_of_not_raises etichette sx sy frame p hp
    simp only [List.cons_append, processObjs, hframe']
    exact ih frame' (fun q hq => hpre q (by simp [hq]))

/-- Witness for the amended claim C3: a drawable detection, then a raising
one, then another drawable one; the result equals rendering the first
detection only. -/
theorem claim_C3_amended_error_stops_frame_witness :
    disegna_risultati ⟨300, 300, []⟩
        ([⟨0, 9/10, ⟨20, 10, 60, 50⟩, false⟩] ++
          ⟨1, 8/10, ⟨30, 30, 80, 80⟩, true⟩ ::
            [⟨2, 9/10, ⟨40, 40, 90, 90⟩, false⟩]) ["person"] 1 1 =
      disegna_risultati ⟨300, 300, []⟩
        [⟨0, 9/10, ⟨20, 10, 60, 50⟩, false⟩] ["person"] 1 1 :=
  claim_C3_amended_error_stops_frame ⟨300, 300, []⟩
    [⟨0, 9/10, ⟨20, 10, 60, 50⟩, false⟩]
    [⟨2, 9/10, ⟨40, 40, 90, 90⟩, false⟩]
    ⟨1, 8/10, ⟨30, 30, 80, 80⟩, true⟩ ["person"] 1 1
    (by intro p hp; simp at hp; subst hp; rfl) rfl

lemma disegnaStep_extends (etichette : List String) (sx sy : ℚ)
    (frame frame' : Frame) (obj : Obj)
    (h : disegnaStep etichette sx sy frame obj = .ok frame') :
    frame'.w = frame.w ∧ frame'.h = frame.h ∧
      ∃ t, frame'.anns = frame.anns ++ t := by
  unfold disegnaStep at h
  split at h
  · exact absurd h (by simp)
  · dsimp only at h
    split at h
    · obtain rfl : frame = frame' := by injection h
      exact ⟨rfl, rfl, [], by simp⟩
    · obtain rfl : { frame with
          anns := frame.anns ++ _ } = frame' := by injection h
      exact ⟨rfl, rfl, _, rfl⟩

lemma processObjs_extends (etichette : List String) (sx sy : ℚ)
    (oggetti : List Obj) : ∀ frame : Frame,
    (processObjs etichette sx sy frame oggetti).w = frame.w ∧
    (processObjs etichette sx sy frame oggetti).h = frame.h ∧
    ∃ t, (processObjs etichette sx sy frame oggetti).anns = frame.anns ++ t := by
  induction oggetti with
  | nil => intro frame; exact ⟨rfl, rfl, [], by simp [processObjs]⟩
  | cons o os ih =>
    intro frame
    cases hstep : disegnaStep etichette sx sy frame o with
    | error e => simp [processObjs, hstep]
    | ok frame' =>
      obtain ⟨hw, hh, t₀, ht₀⟩ :=
        disegnaStep_extends etichette sx sy frame frame' o hstep
      obtain ⟨hw', hh', t₁, ht₁⟩ := ih frame'
      simp only [processObjs, hstep]
      exact ⟨hw'.trans hw, hh'.trans hh, t₀ ++ t₁,
        by rw [ht₁, ht₀, List.append_assoc]⟩

/-- Claim C10: `disegna_risultati` always returns the very frame it was
given — same dimensions, with its existing annotations preserved and only
new annotations appended — and, being a total function, never raises,
including when a detection's processing fails. -/
theorem claim_C10_returns_frame (frame_nativo : Frame) (oggetti : List Obj)
    (etichette : List String) (sx sy : ℚ) :
    (disegna_risultati frame_nativo oggetti etichette sx sy).w = frame_nativo.w ∧
    (disegna_risultati frame_nativo oggetti etichette sx sy).h = frame_nativo.h ∧
    ∃ t, (disegna_risultati frame_nativo oggetti etichette sx sy).anns =
      frame_nativo.anns ++ t :=
  processObjs_extends etichette sx sy oggetti frame_nativo

lemma provaRisoluzione_foldl_inv (cam : Cam) :
    ∀ (cs acc : List Res), acc.Nodup →
      ∃ t, cs.foldl (provaRisoluzione cam) acc = acc ++ t ∧
        (acc ++ t).Nodup ∧
        ∀ r ∈ t, r ∈ cs ∧ cam.apply r = r ∧ r ≠ cam.default_res := by
  intro cs
  induction cs with
  | nil =>
    intro acc hacc
    exact ⟨[], by simp, by simpa using hacc, by simp⟩
  | cons c cs ih =>
    intro acc hacc
    rw [List.foldl_cons]
    by_cases h1 : c = cam.default_res
    · rw [show provaRisoluzione cam acc c = acc from by
        simp [provaRisoluzione, h1]]
      obtain ⟨t, ht, hnd, hall⟩ := ih acc hacc
      exact ⟨t, ht, hnd, fun r hr =>
        ⟨List.mem_cons_of_mem _ (hall r hr).1, (hall r hr).2⟩⟩
    · by_cases h2 : cam.apply c = c ∧ c ∉ acc
      · rw [show provaRisoluzione cam acc c = acc ++ [c] from by
          simp [provaRisoluzione, h1, h2.1, h2.2]]
        have hacc' : (acc ++ [c]).Nodup := by
          rw [List.nodup_append]
          exact ⟨hacc, List.nodup_singleton c, by simpa using h2.2⟩
        obtain ⟨t, ht, hnd, hall⟩ := ih (acc ++ [c]) hacc'
        refine ⟨c :: t, ?_, ?_, ?_⟩
        · rw [ht, List.append_assoc, List.singleton_append]
        · rw [← List.singleton_append, ← List.append_assoc]
          exact hnd
        · intro r hr
          rcases List.mem_cons.mp hr with rfl | hr'
          · exact ⟨List.mem_cons_self _ _, h2.1, h1⟩
          · exact ⟨List.mem_cons_of_mem _ (hall r hr').1, (hall r hr').2⟩
      · rw [show provaRisoluzione cam acc c = acc from by
          rw [provaRisoluzione, if_neg h1, if_neg h2]]
        obtain ⟨t, ht, hnd, hall⟩ := ih acc hacc
        exact ⟨t, ht, hnd, fun r hr =>
          ⟨List.mem_cons_of_mem _ (hall r hr).1, (hall r hr).2⟩⟩

/-- Claim C6: for every capture device whose default request is honored, the
prober returns a non-empty ordered list whose first element is the device's
default resolution; every other element is a probed candidate that the
device echoed back identically when requested; the list has no duplicates;
and the device is restored to its original default resolution before the
prober returns. -/
theorem claim_C6_prober (cam : Cam)
    (hdef : cam.apply cam.default_res = cam.default_res) :
    (trova_risoluzioni_supportate cam).1 ≠ [] ∧
    (trova_risoluzioni_supportate cam).1.head? = some cam.default_res ∧
    (∀ r ∈ (trova_risoluzioni_supportate cam).1.tail,
      r ∈ risoluzioni_da_testare ∧ cam.apply r = r) ∧
    (trova_risoluzioni_supportate cam).1.Nodup ∧
    (trova_risoluzioni_supportate cam).2 = cam.default_res := by
  obtain ⟨t, ht, hnd, hall⟩ :=
    provaRisoluzione_foldl_inv cam risoluzioni_da_testare [cam.default_res]
      (List.nodup_singleton _)
  have hlist : (trova_risoluzioni_supportate cam).1 = cam.default_res :: t := by
    simpa [trova_risoluzioni_supportate] using ht
  refine ⟨by rw [hlist]; simp, by rw [hlist]; rfl, ?_, ?_, hdef⟩
  · rw [hlist]
    exact fun r hr => ⟨(hall r hr).1, (hall r hr).2.1⟩
  · rw [hlist]
    simpa using hnd

/-- Witness for claim C6: a device that honors every request, with default
640×480. -/
theorem claim_C6_prober_witness :
    (trova_risoluzioni_supportate ⟨(640, 480), fun r => r⟩).1.head? =
      some ((640 : ℕ), (480 : ℕ)) ∧
    (trova_risoluzioni_supportate ⟨(640, 480), fun r => r⟩).2 =
      ((640 : ℕ), (480 : ℕ)) :=
  ⟨(claim_C6_prober ⟨(640, 480), fun r => r⟩ rfl).2.1,
   (claim_C6_prober ⟨(640, 480), fun r => r⟩ rfl).2.2.2.2⟩

/-- Claim C8: pressing the debug toggle in an iteration leaves that
iteration's displayed frame exactly as it would have been with no key
pressed (the current frame is not reprocessed), flips only the debug flag
(timestamp, FPS and the loop-continuation decision are unchanged), and the
confidence threshold used for subsequent frames thereby switches between
the two fixed literal constants 0.7 and 0.1. -/
theorem claim_C8_debug_toggle (etichette : List String) (input_size : ℕ × ℕ)
    (width_nativo height_nativo : ℕ) (sx sy : ℚ)
    (s : LoopState) (i : FrameInput) (hret : i.ret = true) :
    (loopStep etichette input_size width_nativo height_nativo sx sy s
        { i with key := some 'd' }).display =
      (loopStep etichette input_size width_nativo height_nativo sx sy s
        { i with key := none }).display ∧
    (loopStep etichette input_size width_nativo height_nativo sx sy s
        { i with key := some 'd' }).state.debug_mode = ! s.debug_mode ∧
    (loopStep etichette input_size width_nativo height_nativo sx sy s
        { i with key := some 'd' }).state.prev_frame_time =
      (loopStep etichette input_size width_nativo height_nativo sx sy s
        { i with key := none }).state.prev_frame_time ∧
    (loopStep etichette input_size width_nativo height_nativo sx sy s
        { i with key := some 'd' }).state.fps =
      (loopStep etichette input_size width_nativo height_nativo sx sy s
        { i with key := none }).state.fps ∧
    (loopStep etichette input_size width_nativo height_nativo sx sy s
        { i with key := some 'd' }).quit =
      (loopStep etichette input_size width_nativo height_nativo sx sy s
        { i with key := none }).quit ∧
    soglia_attuale (loopStep etichette input_size width_nativo height_nativo
        sx sy s { i with key := some 'd' }).state.debug_mode =
      (if s.debug_mode then SOGLIA_CONFIDENZA_DEFAULT
       else SOGLIA_CONFIDENZA_DEBUG) ∧
    SOGLIA_CONFIDENZA_DEFAULT = 7 / 10 ∧ SOGLIA_CONFIDENZA_DEBUG = 1 / 10 := by
  simp only [loopStep, hret, soglia_attuale]
  cases s.debug_mode <;>
    simp [SOGLIA_CONFIDENZA_DEFAULT, SOGLIA_CONFIDENZA_DEBUG]

/-- Witness for claim C8 at a concrete session state and frame input. -/
theorem claim_C8_debug_toggle_witness :
    (loopStep [] (300, 300) 1280 720 (64/15) (12/5) ⟨false, 0, 0⟩
        ⟨1, true, ⟨1280, 720, []⟩, [], some 'd'⟩).state.debug_mode =
      ! (false : Bool) ∧
    (loopStep [] (300, 300) 1280 720 (64/15) (12/5) ⟨false, 0, 0⟩
        ⟨1, true, ⟨1280, 720, []⟩, [], some 'd'⟩).display =
      (loopStep [] (300, 300) 1280 720 (64/15) (12/5) ⟨false, 0, 0⟩
        ⟨1, true, ⟨1280, 720, []⟩, [], none⟩).display :=
  ⟨(claim_C8_debug_toggle [] (300, 300) 1280 720 (64/15) (12/5) ⟨false, 0, 0⟩
      ⟨1, true, ⟨1280, 720, []⟩, [], none⟩ rfl).2.1,
   (claim_C8_debug_toggle [] (300, 300) 1280 720 (64/15) (12/5) ⟨false, 0, 0⟩
      ⟨1, true, ⟨1280, 720, []⟩, [], none⟩ rfl).1⟩
